import Mathlib

/-!
Verification development for the dlt_dataloadtool ingestion framework.

Shallow embedding of the orchestration core of
`src/dlt-ingestion-framework/src/`:
validators (`core/validators.py`), metrics and health scoring
(`core/metrics.py`), circuit breaker and retry executor
(`core/retry_handler.py`), credential resolution (`config/loader.py`)
and the orchestrator execution paths (`core/orchestrator.py`).

Modelling conventions:
- Python job-dictionary cell values are embedded by `Value`
  (None, float nan, strings and ints - the shapes the validated
  configuration columns take).
- Wall-clock instants are integers (seconds) passed explicitly to the
  operations that read or stamp time.
- Python exceptions are embedded by the `Exc` type; fallible code
  returns `Except`.
- Quotation marks inside Python log/validation message literals are
  elided; no proved property depends on them.
-/

namespace Dlt

/-- Embedded Python value for a job-configuration cell. -/
inductive Value where
  | vNone
  | vNan
  | vStr (s : String)
  | vInt (n : Int)
deriving DecidableEq, Repr

/-- Python `str(v)` on an embedded value. -/
def pyStr : Value → String
  | .vNone => "None"
  | .vNan => "nan"
  | .vStr s => s
  | .vInt n => toString n

/-- Python truthiness of an embedded value (`bool(v)`); note that
`float(nan)` is truthy in Python. -/
def truthy : Value → Bool
  | .vNone => false
  | .vNan => true
  | .vStr s => !(s == "")
  | .vInt n => !(n == 0)

/-- Truthiness of `job.get(key)`: a missing key gives Python `None`. -/
def truthyOpt (v : Option Value) : Bool :=
  truthy (v.getD .vNone)

/-- Python `s.lower()` (ASCII case mapping). -/
def pyLower (s : String) : String :=
  String.mk (s.toList.map Char.toLower)

/-- Python `s.upper()` (ASCII case mapping). -/
def pyUpper (s : String) : String :=
  String.mk (s.toList.map Char.toUpper)

/-- Python `s.strip()` (whitespace on both ends). -/
def pyStrip (s : String) : String :=
  String.mk
    (((s.toList.dropWhile Char.isWhitespace).reverse.dropWhile
      Char.isWhitespace).reverse)

/-- Severity levels of `ValidationSeverity` in `core/validators.py`. -/
inductive ValidationSeverity where
  | INFO
  | WARNING
  | ERROR
  | CRITICAL
deriving DecidableEq, Repr

/-- `ValidationResult` dataclass of `core/validators.py` (the optional
`details` payload carries no validated content and is omitted). -/
structure ValidationResult where
  passed : Bool
  message : String
  severity : ValidationSeverity := .ERROR
deriving DecidableEq, Repr

/-- Projection of a job-configuration dictionary onto the keys read by
`ConfigValidator.validate_job` and the orchestrator.  A field holding
`none` embeds an absent key; `some .vNone` embeds a key present with
value `None`. -/
structure Job where
  source_type : Option Value := none
  source_name : Option Value := none
  table_name : Option Value := none
  load_type : Option Value := none
  enabled : Option Value := none
  watermark_column : Option Value := none
  chunk_size : Option Value := none
  schema_name : Option Value := none
deriving DecidableEq, Repr

/-- Python `job.get(key)` restricted to the keys the validator reads. -/
def Job.get (j : Job) : String → Option Value
  | "source_type" => j.source_type
  | "source_name" => j.source_name
  | "table_name" => j.table_name
  | "load_type" => j.load_type
  | "enabled" => j.enabled
  | "watermark_column" => j.watermark_column
  | "chunk_size" => j.chunk_size
  | "schema_name" => j.schema_name
  | _ => none

/-- `ConfigValidator.REQUIRED_COLUMNS`. -/
def REQUIRED_COLUMNS : List String :=
  ["source_type", "source_name", "table_name", "load_type", "enabled"]

/-- `ConfigValidator.VALID_SOURCE_TYPES`. -/
def VALID_SOURCE_TYPES : List String :=
  ["postgresql", "oracle", "mssql", "azure_sql", "api"]

/-- `ConfigValidator.VALID_LOAD_TYPES`. -/
def VALID_LOAD_TYPES : List String := ["FULL", "INCREMENTAL"]

/-- Required-field check of `validate_job`: a column is missing when the
key is absent, the value is `None`, or `str(value).strip()` is empty. -/
def missingRequired (j : Job) : List ValidationResult :=
  REQUIRED_COLUMNS.filterMap fun col =>
    let bad : Bool :=
      match j.get col with
      | none => true
      | some .vNone => true
      | some v => pyStrip (pyStr v) == ""
    if bad then
      some ⟨false, "Missing required field: " ++ col, .CRITICAL⟩
    else none

/-- Decimal-digit run to a natural number. -/
def digitsVal (cs : List Char) : Nat :=
  cs.foldl (fun a c => a * 10 + (c.toNat - 48)) 0

/-- Python `int(s)` on a string: optional surrounding whitespace,
optional sign, then decimal digits (digit-group underscores are outside
the embedded domain). -/
def pyIntString (s : String) : Option Int :=
  let cs := (pyStrip s).toList
  let (sign, rest) : Int × List Char :=
    match cs with
    | '-' :: r => (-1, r)
    | '+' :: r => (1, r)
    | r => (1, r)
  if rest ≠ [] ∧ rest.all Char.isDigit then
    some (sign * (digitsVal rest : Int))
  else none

/-- Python `int(float(s))` on a string: decimal literal with optional
sign and optional fractional part; `int` truncates toward zero, so the
result is the signed integer part (exponent and infinity spellings are
outside the embedded domain). -/
def pyIntOfFloatString (s : String) : Option Int :=
  let cs := (pyStrip s).toList
  let (sign, rest) : Int × List Char :=
    match cs with
    | '-' :: r => (-1, r)
    | '+' :: r => (1, r)
    | r => (1, r)
  let intPart := rest.takeWhile Char.isDigit
  let rest2 := rest.dropWhile Char.isDigit
  match rest2 with
  | [] =>
    if intPart ≠ [] then some (sign * (digitsVal intPart : Int)) else none
  | '.' :: frac =>
    if frac.all Char.isDigit ∧ (intPart ≠ [] ∨ frac ≠ []) then
      some (sign * (digitsVal intPart : Int))
    else none
  | _ => none

/-- Character class `[a-zA-Z0-9_]`. -/
def isWordChar (c : Char) : Bool :=
  c.isAlpha || c.isDigit || c == '_'

/-- Identifier shape `[a-zA-Z_][a-zA-Z0-9_]*` on a character list. -/
def isIdentChars : List Char → Bool
  | [] => false
  | c :: rest => (c.isAlpha || c == '_') && rest.all isWordChar

/-- Python `re.match(r"^[a-zA-Z_][a-zA-Z0-9_]*$", s)`: anchored match,
where `$` also matches just before a single trailing newline. -/
def reMatchIdent (s : String) : Bool :=
  isIdentChars s.toList ||
    (s.toList.getLast? == some '\n' && isIdentChars s.toList.dropLast)

/-- Out-of-range message of the chunk-size check (grouping commas as in
the source message). -/
def chunkMsg (n : Int) : String :=
  s!"chunk_size {n} out of range (1,000 - 10,000,000)"

/-- Range test of the chunk-size check: outside [1000, 10000000] yields
one failing WARNING result. -/
def chunkRange (n : Int) : List ValidationResult :=
  if n < 1000 || n > 10000000 then
    [⟨false, chunkMsg n, .WARNING⟩]
  else []

/-- Chunk-size check of `validate_job`.  The guard
`str(chunk_val).lower() not in ["", "nan", "none", "null"]` filters the
value: `None` is filtered by `is not None`, `nan` stringifies to a
member of the skip list, and `str(int)` is never a member, so only
string values consult the skip list.  Numeric strings go through
`int(float(s))`; an unparseable string yields a WARNING. -/
def chunkResults (chunkVal : Option Value) : List ValidationResult :=
  match chunkVal with
  | none => []
  | some .vNone => []
  | some .vNan => []
  | some (.vInt n) => chunkRange n
  | some (.vStr s) =>
    if ["", "nan", "none", "null"].contains (pyLower s) then []
    else
      match pyIntOfFloatString s with
      | some n => chunkRange n
      | none => [⟨false, "chunk_size must be an integer: " ++ s, .WARNING⟩]

/-- Normalized source type read by several checks
(`str(job.get("source_type", "")).lower()`). -/
def jobSourceType (j : Job) : String :=
  pyLower (pyStr ((j.get "source_type").getD (.vStr "")))

/-- Normalized load type (`str(job.get("load_type", "")).upper()`). -/
def jobLoadType (j : Job) : String :=
  pyUpper (pyStr ((j.get "load_type").getD (.vStr "")))

/-- Source-type membership check of `validate_job`. -/
def checkSourceType (j : Job) : List ValidationResult :=
  if !(VALID_SOURCE_TYPES.contains (jobSourceType j)) then
    [⟨false, "Invalid source_type: " ++ jobSourceType j ++
      ". Must be one of " ++ String.intercalate ", " VALID_SOURCE_TYPES,
      .ERROR⟩]
  else []

/-- Load-type membership check of `validate_job`. -/
def checkLoadType (j : Job) : List ValidationResult :=
  if !(VALID_LOAD_TYPES.contains (jobLoadType j)) then
    [⟨false, "Invalid load_type: " ++ jobLoadType j ++
      ". Must be one of " ++ String.intercalate ", " VALID_LOAD_TYPES,
      .ERROR⟩]
  else []

/-- Incremental-configuration check of `validate_job`: an INCREMENTAL
load with a falsy `watermark_column` fails with an ERROR. -/
def checkWatermark (j : Job) : List ValidationResult :=
  if jobLoadType j == "INCREMENTAL" && !(truthyOpt j.watermark_column) then
    [⟨false, "INCREMENTAL load requires watermark_column", .ERROR⟩]
  else []

/-- Table-name pattern check of `validate_job` (WARNING only). -/
def checkTableName (j : Job) : List ValidationResult :=
  if !(reMatchIdent (pyStr ((j.get "table_name").getD (.vStr "")))) then
    [⟨false, "Invalid table_name format: " ++
      pyStr ((j.get "table_name").getD (.vStr "")), .WARNING⟩]
  else []

/-- Oracle schema-name check of `validate_job`. -/
def checkOracleSchema (j : Job) : List ValidationResult :=
  if jobSourceType j == "oracle" && !(truthyOpt j.schema_name) then
    [⟨false, "Oracle source requires schema_name", .ERROR⟩]
  else []

/-- The checks following the required-field gate, in source order. -/
def laterChecks (j : Job) : List ValidationResult :=
  checkSourceType j ++ checkLoadType j ++ checkWatermark j ++
    checkTableName j ++ chunkResults j.chunk_size ++ checkOracleSchema j

/-- `ConfigValidator.validate_job` of `core/validators.py`: stop on
missing required fields; otherwise run the remaining checks (all of
whose results are failing), and append the single passing INFO result
exactly when no check failed. -/
def validate_job (j : Job) : List ValidationResult :=
  let req := missingRequired j
  if req ≠ [] then req
  else
    let results := laterChecks j
    if results = [] then
      [⟨true, "Job configuration valid: " ++
        pyStr ((j.get "source_name").getD .vNone) ++ "." ++
        pyStr ((j.get "table_name").getD .vNone), .INFO⟩]
    else results

/-- One job contributes a failing ERROR/CRITICAL result (the condition
the `validate_all_jobs` loop tests per result). -/
def hasErrCrit (rs : List ValidationResult) : Bool :=
  rs.any fun r =>
    !r.passed && (r.severity == .ERROR || r.severity == .CRITICAL)

/-- `ConfigValidator.validate_all_jobs`: forward fold over the jobs,
extending the result list and clearing `all_valid` whenever a job has a
failing ERROR/CRITICAL result. -/
def validate_all_jobs (jobs : List Job) : Bool × List ValidationResult :=
  jobs.foldl
    (fun acc job =>
      let job_results := validate_job job
      (acc.1 && !(hasErrCrit job_results), acc.2 ++ job_results))
    (true, [])

/-- `PipelineMetrics` of `core/metrics.py` restricted to the fields the
collector logic reads and writes (timestamps and byte/chunk counters
carry wall-clock data the embedded claims never consult).  The
`error_message` field embeds `custom_metrics["error_message"]`. -/
structure PipelineMetrics where
  job_name : String
  status : String := "running"
  rows_processed : Nat := 0
  retry_count : Nat := 0
  error_count : Nat := 0
  source_type : String := ""
  destination_type : String := ""
  error_message : Option String := none
deriving DecidableEq, Repr

/-- Insertion-ordered dictionary update (`d[k] = v`). -/
def setAssoc {α : Type} : List (String × α) → String → α → List (String × α)
  | [], k, v => [(k, v)]
  | (k0, v0) :: rest, k, v =>
    if k0 == k then (k, v) :: rest else (k0, v0) :: setAssoc rest k v

/-- Dictionary lookup (`d.get(k)`). -/
def lookupAssoc {α : Type} : List (String × α) → String → Option α
  | [], _ => none
  | (k0, v0) :: rest, k => if k0 == k then some v0 else lookupAssoc rest k

/-- Dictionary removal (`d.pop(k)` discarding the value). -/
def removeAssoc {α : Type} : List (String × α) → String → List (String × α)
  | [], _ => []
  | (k0, v0) :: rest, k =>
    if k0 == k then rest else (k0, v0) :: removeAssoc rest k

/-- `MetricsCollector` of `core/metrics.py`: active jobs keyed by name,
and the completed-jobs list the summary and health score aggregate.
Observer hooks are exercised for effect only (a hook failure is
swallowed), so they carry no embedded state. -/
structure MetricsCollector where
  active_jobs : List (String × PipelineMetrics) := []
  completed_jobs : List PipelineMetrics := []
deriving DecidableEq, Repr

/-- `MetricsCollector.start_job`: create a running record and register
it under the job name. -/
def MetricsCollector.start_job (m : MetricsCollector)
    (job_name source_type destination_type : String) : MetricsCollector :=
  { m with
    active_jobs := setAssoc m.active_jobs job_name
      { job_name := job_name, source_type := source_type,
        destination_type := destination_type } }

/-- `MetricsCollector.complete_job`: unknown job names are ignored with
a warning; otherwise the record is popped from the active map,
finalized, and appended to the completed list.  An empty error message
is falsy in Python and is not stored. -/
def MetricsCollector.complete_job (m : MetricsCollector) (job_name status : String)
    (rows_processed : Nat) (error_message : Option String) : MetricsCollector :=
  match lookupAssoc m.active_jobs job_name with
  | none => m
  | some pm =>
    let pm2 :=
      { pm with
        status := status
        rows_processed := rows_processed
        error_message :=
          match error_message with
          | some e => if e == "" then pm.error_message else some e
          | none => pm.error_message }
    { active_jobs := removeAssoc m.active_jobs job_name
      completed_jobs := m.completed_jobs ++ [pm2] }

/-- Python builtin `min` on two rationals (first argument on ties). -/
def pyMin (a b : ℚ) : ℚ := if a ≤ b then a else b

/-- Python builtin `max` on two rationals (first argument on ties). -/
def pyMax (a b : ℚ) : ℚ := if b ≤ a then a else b

/-- `MetricsCollector.get_health_score` of `core/metrics.py`: 100 when
no job has completed, otherwise a 60-point success-rate share plus two
20-point shares eroded by capped retry and error penalties, clamped to
[0, 100]. -/
def MetricsCollector.get_health_score (m : MetricsCollector) : ℚ :=
  if m.completed_jobs = [] then 100
  else
    let total : ℚ := m.completed_jobs.length
    let success_count : ℚ :=
      (m.completed_jobs.filter (fun j => j.status == "SUCCESS")).length
    let success_rate := success_count / total
    let total_retries : ℚ := (m.completed_jobs.map (·.retry_count)).sum
    let retry_penalty := pyMin (total_retries * 2) 20
    let total_errors : ℚ := (m.completed_jobs.map (·.error_count)).sum
    let error_penalty := pyMin (total_errors * 5) 20
    let score := success_rate * 60 + (20 - retry_penalty) + (20 - error_penalty)
    pyMax 0 (pyMin 100 score)

/-- Health-score formula as the claim states it: over the completed-jobs
list, `60 * successRate + (20 - min(20, 2 * totalRetries)) +
(20 - min(20, 5 * totalErrors))` clamped to [0, 100], and exactly 100 on
an empty list.  Stated from the specification text, to be compared with
the code-derived `MetricsCollector.get_health_score`. -/
def specHealthScore (completed : List PipelineMetrics) : ℚ :=
  if completed = [] then 100
  else
    let total : ℚ := completed.length
    let successRate : ℚ :=
      ((completed.filter (fun j => j.status == "SUCCESS")).length : ℚ) / total
    let totalRetries : ℚ := (completed.map (·.retry_count)).sum
    let totalErrors : ℚ := (completed.map (·.error_count)).sum
    max 0 (min 100
      (60 * successRate + (20 - min 20 (2 * totalRetries)) +
        (20 - min 20 (5 * totalErrors))))

/-- `CircuitState` of `core/retry_handler.py`. -/
inductive CircuitState where
  | CLOSED
  | OPEN
  | HALF_OPEN
deriving DecidableEq, Repr

/-- `CircuitBreakerConfig` with its source defaults.  The timeout is in
seconds on the embedded rational clock. -/
structure CircuitBreakerConfig where
  failure_threshold : Nat := 5
  success_threshold : Nat := 2
  timeout : Int := 30
deriving DecidableEq, Repr

/-- `CircuitBreaker` of `core/retry_handler.py`.  The `mode` field
embeds the private `_state` attribute; instants are rationals supplied
by the caller (`datetime.now()` at each mutation or read). -/
structure CircuitBreaker where
  name : String
  config : CircuitBreakerConfig := {}
  mode : CircuitState := .CLOSED
  failure_count : Nat := 0
  success_count : Nat := 0
  last_failure_time : Option Int := none
deriving DecidableEq, Repr

/-- The `state` property: reading the state of an OPEN breaker whose
timeout has elapsed since the last failure lazily transitions it to
HALF_OPEN; the read returns the (possibly transitioned) state together
with the updated breaker. -/
def CircuitBreaker.readState (b : CircuitBreaker) (now : Int) :
    CircuitState × CircuitBreaker :=
  if b.mode = .OPEN then
    match b.last_failure_time with
    | some t =>
      if now - t ≥ b.config.timeout then
        (.HALF_OPEN, { b with mode := .HALF_OPEN })
      else (.OPEN, b)
    | none => (.OPEN, b)
  else (b.mode, b)

/-- `CircuitBreaker.record_success`: in HALF_OPEN, count the success and
close (resetting both counters) on reaching the success threshold; in
CLOSED, reset the failure count; in OPEN, do nothing. -/
def CircuitBreaker.record_success (b : CircuitBreaker) : CircuitBreaker :=
  if b.mode = .HALF_OPEN then
    if b.success_count + 1 ≥ b.config.success_threshold then
      { b with mode := .CLOSED, failure_count := 0, success_count := 0 }
    else { b with success_count := b.success_count + 1 }
  else if b.mode = .CLOSED then
    { b with failure_count := 0 }
  else b

/-- `CircuitBreaker.record_failure`: always count the failure and stamp
its time; a failure in HALF_OPEN reopens the breaker (clearing the
success count); in CLOSED the breaker opens on reaching the failure
threshold. -/
def CircuitBreaker.record_failure (b : CircuitBreaker) (now : Int) :
    CircuitBreaker :=
  let b1 := { b with
    failure_count := b.failure_count + 1
    last_failure_time := some now }
  if b1.mode = .HALF_OPEN then
    { b1 with mode := .OPEN, success_count := 0 }
  else if b1.mode = .CLOSED then
    if b1.failure_count ≥ b1.config.failure_threshold then
      { b1 with mode := .OPEN }
    else b1
  else b1

/-- `CircuitBreaker.allow_request`: a request is allowed when the
(lazily transitioned) state is not OPEN. -/
def CircuitBreaker.allow_request (b : CircuitBreaker) (now : Int) :
    Bool × CircuitBreaker :=
  let (st, b2) := b.readState now
  (!(st == .OPEN), b2)

/-- Embedded Python exceptions reaching the retry executor.  The
retryable class covers the configured transient classes
(ConnectionError, TimeoutError, OSError); `circuitOpen` embeds the
RuntimeError raised for an OPEN breaker, which is not one of the
retryable classes. -/
inductive Exc where
  | retryable (msg : String)
  | nonRetryable (msg : String)
  | circuitOpen (name : String)
deriving DecidableEq, Repr

/-- Membership in the retryable exception tuple
(`isinstance(e, self.config.retryable_exceptions)` with the source
default classes, which are the ones every `RetryConfig` in this
repository uses). -/
def Exc.isRetryable : Exc → Bool
  | .retryable _ => true
  | _ => false

/-- `RetryConfig` of `core/retry_handler.py` with its source defaults.
The delay parameters shape only the sleep durations (randomized by
jitter), which the control flow embedded here never consults. -/
structure RetryConfig where
  max_retries : Nat := 3
  initial_delay : ℚ := 1
  max_delay : ℚ := 60
  exponential_base : ℚ := 2
  jitter : ℚ := 1 / 10
deriving DecidableEq, Repr

/-- `RetryHandler`: a retry configuration and an optional breaker. -/
structure RetryHandler where
  config : RetryConfig := {}
  circuit_breaker : Option CircuitBreaker := none

/-- `RetryHandler.should_retry`: an OPEN breaker vetoes the retry;
otherwise retry exactly the retryable exception classes.  The breaker
read may lazily transition it, so the updated breaker is returned. -/
def should_retry (cb : Option CircuitBreaker) (e : Exc) (now : Int) :
    Bool × Option CircuitBreaker :=
  match cb with
  | some b =>
    let (allow, b2) := b.allow_request now
    if !allow then (false, some b2)
    else (e.isRetryable, some b2)
  | none => (e.isRetryable, none)

/-- The loop body of `RetryHandler.execute_with_retry`.  `fn i` is the
outcome of the i-th invocation of the wrapped function (0-based);
`attempt` is the 1-based Python loop counter, `remaining` the number of
loop iterations left (`max_retries - attempt + 1`), and `calls` counts
invocations of `fn` so far.  The result is the Python return value
(`none` embeds falling off the loop and returning `None`, reachable
only with `max_retries = 0`) or the raised exception, together with the
final breaker and the total invocation count.  Sleeping between
attempts has no embedded effect. -/
def retryLoop {α : Type} (maxR : Nat) (fn : Nat → Except Exc α) (now : Int) :
    Nat → Nat → Option CircuitBreaker → Nat →
    Except Exc (Option α) × Option CircuitBreaker × Nat
  | _, 0, cb, calls => (.ok none, cb, calls)
  | attempt, remaining + 1, cb, calls =>
    let consult : Option CircuitBreaker × Option Exc :=
      match cb with
      | some b =>
        let (allow, b2) := b.allow_request now
        if allow then (some b2, none)
        else (some b2, some (.circuitOpen b2.name))
      | none => (none, none)
    match consult with
    | (cb1, some e) =>
      let cb2 := cb1.map (·.record_failure now)
      let (sr, cb3) := should_retry cb2 e now
      if !sr || attempt ≥ maxR then (.error e, cb3, calls)
      else retryLoop maxR fn now (attempt + 1) remaining cb3 calls
    | (cb1, none) =>
      match fn calls with
      | .ok v =>
        let cb2 := cb1.map (·.record_success)
        (.ok (some v), cb2, calls + 1)
      | .error e =>
        let cb2 := cb1.map (·.record_failure now)
        let (sr, cb3) := should_retry cb2 e now
        if !sr || attempt ≥ maxR then (.error e, cb3, calls + 1)
        else retryLoop maxR fn now (attempt + 1) remaining cb3 (calls + 1)

/-- `RetryHandler.execute_with_retry`: run the Python
`for attempt in range(1, max_retries + 1)` loop from attempt 1. -/
def execute_with_retry {α : Type} (h : RetryHandler)
    (fn : Nat → Except Exc α) (now : Int) :
    Except Exc (Option α) × Option CircuitBreaker × Nat :=
  retryLoop h.config.max_retries fn now 1 h.config.max_retries
    h.circuit_breaker 0

/-- `IngestionOrchestrator._determine_chunk_size` of
`core/orchestrator.py`.  The Excel value is used when truthy and not
NaN (`job.get("chunk_size") and not pd.isna(...)`); `int()` is applied
to it directly and a parse failure keeps the default 100000; with no
configured value, tables estimated above 1000000 rows take the
recommended chunk; otherwise the default stands.  The memory-warning
log line does not alter the value. -/
def determine_chunk_size (j : Job) (estimated_rows : Option Int)
    (recommended_chunk : Int) : Int :=
  let v := j.chunk_size.getD .vNone
  if truthy v && !(v == Value.vNan) then
    match (match v with
           | .vInt n => some n
           | .vStr s => pyIntString s
           | _ => none) with
    | some n => n
    | none => 100000
  else
    match estimated_rows with
    | some r => if 1000000 < r then recommended_chunk else 100000
    | none => 100000

/-- `IngestionOrchestrator._execute_database_job`: the whole body is a
try/except returning `(True, rows)` from a completed transfer and
`(False, 0)` for any raised exception.  `body` is the outcome of the
wrapped transfer work. -/
def execute_database_job (body : Except Exc Nat) : Bool × Nat :=
  match body with
  | .ok rows => (true, rows)
  | .error _ => (false, 0)

/-- `IngestionOrchestrator._execute_api_job`: same catch-all shape as
the database wrapper. -/
def execute_api_job (body : Except Exc Nat) : Bool × Nat :=
  match body with
  | .ok rows => (true, rows)
  | .error _ => (false, 0)

/-- One row of the audit trail written by `MetadataTracker.record_job`
(`metadata/tracker.py`); the timestamp, duration and partition-path
columns carry wall-clock or path data the claims never consult. -/
structure AuditRecord where
  job_name : String
  status : String
  rows : Nat
  error_message : Option String := none
deriving DecidableEq, Repr

/-- Orchestrator-visible mutable state: the metrics collector and the
append-only audit trail. -/
structure OrchestratorState where
  metrics : MetricsCollector := {}
  audit : List AuditRecord := []
deriving DecidableEq, Repr

/-- Python `f"{job[k1]}.{job[k2]}"` job display name. -/
def jobDisplayName (j : Job) : String :=
  pyStr ((j.get "source_name").getD .vNone) ++ "." ++
    pyStr ((j.get "table_name").getD .vNone)

/-- Message attached to an exception caught at the orchestrator
boundary (`f"{type(e).__name__}: {str(e)}"`; the class-name prefix of
the Python format is elided). -/
def excMessage : Exc → String
  | .retryable m => m
  | .nonRetryable m => m
  | .circuitOpen n => "Circuit breaker " ++ n ++ " is OPEN"

/-- `IngestionOrchestrator.execute_job` of `core/orchestrator.py`.
Collaborator outcomes are parameters: `secretResults` is what
`SecretsValidator.validate_source_secrets` returned for this source,
and `transfer` is what `retry_handler.execute_with_retry` returned or
raised around the transfer wrapper.  The path structure follows the
source: the first failing ERROR/CRITICAL validation result records a
VALIDATION_FAILED audit row and returns False; then the first failing
secrets result records SECRETS_INVALID and returns False; otherwise
metrics tracking starts and the transfer outcome is recorded as
SUCCESS, FAILED, or - for a caught exception - ERROR, in both the audit
trail and the metrics collector. -/
def execute_job (j : Job) (secretResults : List ValidationResult)
    (transfer : Except Exc (Bool × Nat)) (st : OrchestratorState) :
    Bool × OrchestratorState :=
  let job_name := jobDisplayName j
  let source_type := pyLower (pyStr ((j.get "source_type").getD .vNone))
  let validation_results := validate_job j
  match validation_results.find? (fun r =>
      !r.passed && (r.severity == .ERROR || r.severity == .CRITICAL)) with
  | some r =>
    (false, { st with audit := st.audit ++
      [{ job_name := job_name, status := "VALIDATION_FAILED", rows := 0,
         error_message := some r.message }] })
  | none =>
    match secretResults.find? (fun r => !r.passed) with
    | some r =>
      (false, { st with audit := st.audit ++
        [{ job_name := job_name, status := "SECRETS_INVALID", rows := 0,
           error_message := some r.message }] })
    | none =>
      let m1 := st.metrics.start_job job_name source_type "adls_gen2"
      match transfer with
      | .ok (true, rows_processed) =>
        (true,
          { metrics := m1.complete_job job_name "SUCCESS" rows_processed none
            audit := st.audit ++
              [{ job_name := job_name, status := "SUCCESS",
                 rows := rows_processed }] })
      | .ok (false, _) =>
        (false,
          { metrics := m1.complete_job job_name "FAILED" 0
              (some "Job execution failed")
            audit := st.audit ++
              [{ job_name := job_name, status := "FAILED", rows := 0,
                 error_message := some "Job execution failed" }] })
      | .error e =>
        (false,
          { metrics := m1.complete_job job_name "ERROR" 0
              (some (excMessage e))
            audit := st.audit ++
              [{ job_name := job_name, status := "ERROR", rows := 0,
                 error_message := some (excMessage e) }] })

/-- The sequential execution loop of `IngestionOrchestrator.run_all`:
every job is attempted in list order, a truthy `execute_job` result
increments the success count and a falsy one the failed count; the loop
never aborts early.  Each list entry pairs a job with its collaborator
outcomes, as in `execute_job`. -/
def run_all_seq (items : List (Job × List ValidationResult × Except Exc (Bool × Nat)))
    (st : OrchestratorState) : Nat × Nat × OrchestratorState :=
  items.foldl
    (fun acc item =>
      let (ok, st2) := execute_job item.1 item.2.1 item.2.2 acc.2.2
      if ok then (acc.1 + 1, acc.2.1, st2) else (acc.1, acc.2.1 + 1, st2))
    (0, 0, st)

/-- Environment-variable keys probed by `ConfigLoader._load_from_env`. -/
def ENV_KEYS : List String :=
  ["HOST", "PORT", "DATABASE", "USERNAME", "PASSWORD", "SID", "SCHEMA",
   "BASE_URL", "API_KEY", "BUCKET_URL", "STORAGE_ACCOUNT", "STORAGE_KEY"]

/-- Name of the environment variable for one source key
(`DLT_<SOURCE>_<KEY>` with dashes of the source name underscored). -/
def envVarName (source_name key : String) : String :=
  "DLT_" ++ String.mk ((pyUpper source_name).toList.map
    (fun c => if c == '-' then '_' else c)) ++ "_" ++ key

/-- `ConfigLoader._load_from_env`: collect the truthy probed variables
into a lower-cased-key map; an empty map becomes `None`. -/
def load_from_env (getenv : String → Option String) (source_name : String) :
    Option (List (String × String)) :=
  let config := ENV_KEYS.filterMap fun k =>
    match getenv (envVarName source_name k) with
    | some v => if v == "" then none else some (pyLower k, v)
    | none => none
  if config = [] then none else some config

/-- Not-found error raised when every backend came up empty. -/
def notFoundMsg (source_name : String) : String :=
  "Source configuration " ++ source_name ++ " not found in any secret source"

/-- Final fallback of `ConfigLoader.get_source_config`: the secrets.toml
`sources` table.  Membership of the source name decides; a present
entry is returned as stored. -/
def trySecretsToml (toml_sources : Option (List (String × List (String × String))))
    (source_name : String) : Except String (List (String × String)) :=
  match toml_sources with
  | some srcs =>
    match lookupAssoc srcs source_name with
    | some cfg => .ok cfg
    | none => .error (notFoundMsg source_name)
  | none => .error (notFoundMsg source_name)

/-- Environment-variable stage of `ConfigLoader.get_source_config`. -/
def tryEnvThenToml (getenv : String → Option String)
    (toml_sources : Option (List (String × List (String × String))))
    (source_name : String) : Except String (List (String × String)) :=
  match load_from_env getenv source_name with
  | some cfg => .ok cfg
  | none => trySecretsToml toml_sources source_name

/-- Key-vault stage of `ConfigLoader.get_source_config`: consulted only
when the loader was configured to use the vault; a falsy (empty) vault
result or a raised lookup exception falls through silently. -/
def tryVaultThenRest (use_keyvault : Bool)
    (vaultLookup : Except String (List (String × String)))
    (getenv : String → Option String)
    (toml_sources : Option (List (String × List (String × String))))
    (source_name : String) : Except String (List (String × String)) :=
  if use_keyvault then
    match vaultLookup with
    | .ok cfg =>
      if cfg.isEmpty then tryEnvThenToml getenv toml_sources source_name
      else .ok cfg
    | .error _ => tryEnvThenToml getenv toml_sources source_name
  else tryEnvThenToml getenv toml_sources source_name

/-- `ConfigLoader.get_source_config` of `config/loader.py`.
`dbResult` is what `_load_from_databricks` returned (`None` outside
Databricks or when no probed key resolved; the helper never returns an
empty map, but a falsy map would fall through just as `if db_config:`
does); `vaultLookup` is the key-vault lookup outcome; `getenv` the
process environment; `toml_sources` the secrets.toml `sources` table
when the file has one. -/
def get_source_config (dbResult : Option (List (String × String)))
    (use_keyvault : Bool)
    (vaultLookup : Except String (List (String × String)))
    (getenv : String → Option String)
    (toml_sources : Option (List (String × List (String × String))))
    (source_name : String) : Except String (List (String × String)) :=
  match dbResult with
  | some cfg =>
    if cfg.isEmpty then
      tryVaultThenRest use_keyvault vaultLookup getenv toml_sources source_name
    else .ok cfg
  | none =>
    tryVaultThenRest use_keyvault vaultLookup getenv toml_sources source_name

theorem validate_job_of_mem_laterChecks (j : Job)
    (hreq : missingRequired j = []) (r : ValidationResult)
    (hr : r ∈ laterChecks j) : r ∈ validate_job j := by
  unfold validate_job
  rw [hreq]
  simp only [ne_eq, not_true_eq_false, if_false]
  rw [if_neg (List.ne_nil_of_mem hr)]
  exact hr

/-- Job used to witness the incremental-watermark claim: a postgresql
INCREMENTAL job with no watermark column. -/
def wmJob : Job :=
  { source_type := some (.vStr "postgresql")
    source_name := some (.vStr "pg")
    table_name := some (.vStr "orders")
    load_type := some (.vStr "INCREMENTAL")
    enabled := some (.vStr "Y") }

/-- C8: for every job dictionary whose load mode normalizes to
INCREMENTAL and whose watermark column is absent or empty, given all
required fields present and non-blank, `validate_job` returns a failing
result with severity ERROR whose message contains the text
"watermark". -/
theorem incremental_missing_watermark_error (j : Job)
    (hreq : missingRequired j = [])
    (hload : jobLoadType j = "INCREMENTAL")
    (hwm : j.watermark_column = none ∨ j.watermark_column = some .vNone ∨
      j.watermark_column = some (.vStr "")) :
    ∃ r ∈ validate_job j, r.passed = false ∧ r.severity = .ERROR ∧
      ∃ pre post, r.message = pre ++ "watermark" ++ post := by
  have hwmF : truthyOpt j.watermark_column = false := by
    rcases hwm with h | h | h <;> simp [h, truthyOpt, truthy]
  refine ⟨⟨false, "INCREMENTAL load requires watermark_column", .ERROR⟩, ?_,
    rfl, rfl, "INCREMENTAL load requires ", "_column", by decide⟩
  apply validate_job_of_mem_laterChecks j hreq
  unfold laterChecks checkWatermark
  rw [hload]
  simp [hwmF]

/-- C8 witness: the concrete INCREMENTAL job with no watermark column
yields the failing ERROR result. -/
theorem incremental_missing_watermark_error_witness :
    ∃ r ∈ validate_job wmJob, r.passed = false ∧ r.severity = .ERROR ∧
      ∃ pre post, r.message = pre ++ "watermark" ++ post :=
  incremental_missing_watermark_error wmJob (by decide) (by decide)
    (Or.inl rfl)

theorem validate_all_jobs_foldl_eq (jobs : List Job) (b : Bool)
    (acc : List ValidationResult) :
    jobs.foldl
      (fun acc2 job =>
        let job_results := validate_job job
        (acc2.1 && !(hasErrCrit job_results), acc2.2 ++ job_results))
      (b, acc) =
    (b && !(jobs.any fun j => hasErrCrit (validate_job j)),
      acc ++ (jobs.map validate_job).flatten) := by
  induction jobs generalizing b acc with
  | nil => simp
  | cons j rest ih =>
    simp [ih, Bool.and_assoc, List.append_assoc]

/-- C9: `validate_all_jobs` reports `all_valid = false` exactly when
some job has a failing ERROR or CRITICAL result (failing WARNING/INFO
results alone never clear the flag), and it returns every job's
validation results in order, neither mutating nor dropping any job. -/
theorem validate_all_jobs_gating (jobs : List Job) :
    ((validate_all_jobs jobs).1 = false ↔
      ∃ j ∈ jobs, ∃ r ∈ validate_job j, r.passed = false ∧
        (r.severity = .ERROR ∨ r.severity = .CRITICAL)) ∧
    (validate_all_jobs jobs).2 = (jobs.map validate_job).flatten := by
  unfold validate_all_jobs
  rw [validate_all_jobs_foldl_eq]
  constructor
  · simp [hasErrCrit, List.any_eq_true]
  · simp

theorem pyMin_eq (a b : ℚ) : pyMin a b = min a b := (min_def a b).symm

theorem pyMax_eq (a b : ℚ) : pyMax a b = max a b := by
  unfold pyMax
  rcases le_total a b with h | h
  · rcases eq_or_lt_of_le h with rfl | hlt
    · simp
    · rw [if_neg (not_le.mpr hlt), max_eq_right h]
  · rw [if_pos h, max_eq_left h]

theorem healthClamp_eq (sr tr te : ℚ) :
    pyMax 0 (pyMin 100
      (sr * 60 + (20 - pyMin (tr * 2) 20) + (20 - pyMin (te * 5) 20))) =
    max 0 (min 100
      (60 * sr + (20 - min 20 (2 * tr)) + (20 - min 20 (5 * te)))) := by
  simp only [pyMin_eq, pyMax_eq]
  rw [mul_comm sr 60, mul_comm tr 2, mul_comm te 5, min_comm (2 * tr) 20,
    min_comm (5 * te) 20]

/-- Completed job with SUCCESS status, no retries and no errors. -/
def successJob : PipelineMetrics := { job_name := "job", status := "SUCCESS" }

/-- Completed job with FAILED status, no retries and no errors. -/
def failedJob : PipelineMetrics := { job_name := "job", status := "FAILED" }

/-- Collector holding 10 completed jobs, 8 of them SUCCESS, with zero
retries and zero errors. -/
def tenJobCollector : MetricsCollector :=
  { completed_jobs := List.replicate 8 successJob ++ List.replicate 2 failedJob }

/-- C6: `get_health_score` computes, over the completed-jobs list,
`60 * successRate + (20 - min(20, 2 * totalRetries)) +
(20 - min(20, 5 * totalErrors))` clamped to [0, 100]; an empty
completed-jobs list scores exactly 100; and 10 completed jobs with 8
SUCCESS, zero retries and zero errors score exactly 88. -/
theorem health_score_formula :
    (∀ m : MetricsCollector, m.get_health_score = specHealthScore m.completed_jobs) ∧
    MetricsCollector.get_health_score {} = 100 ∧
    tenJobCollector.get_health_score = 88 := by
  refine ⟨?_, by simp [MetricsCollector.get_health_score], ?_⟩
  · intro m
    unfold MetricsCollector.get_health_score specHealthScore
    by_cases h : m.completed_jobs = []
    · simp [h]
    · rw [if_neg h, if_neg h]
      exact healthClamp_eq _ _ _
  · simp [tenJobCollector, successJob, failedJob,
      MetricsCollector.get_health_score, pyMin, pyMax, List.replicate]
    norm_num

/-- C10: the transfer wrappers `_execute_database_job` and
`_execute_api_job` convert every exception raised by the transfer body
into the return value `(False, 0)` instead of propagating it; hence
when `execute_with_retry` runs such a wrapper through an allowing
breaker, the wrapped call returns on the first attempt with no retry,
and the breaker records a success - even when the wrapped result is the
failure value `(False, 0)`. -/
theorem transfer_wrappers_swallow :
    (∀ e : Exc, execute_database_job (.error e) = (false, 0) ∧
      execute_api_job (.error e) = (false, 0)) ∧
    (∀ (cfg : RetryConfig) (b : CircuitBreaker) (body : Except Exc Nat)
      (now : Int), 1 ≤ cfg.max_retries → (b.allow_request now).1 = true →
      execute_with_retry ⟨cfg, some b⟩
          (fun _ => .ok (execute_database_job body)) now =
        (.ok (some (execute_database_job body)),
          some ((b.allow_request now).2.record_success), 1)) := by
  constructor
  · intro e
    exact ⟨rfl, rfl⟩
  · intro cfg b body now hmr hallow
    obtain ⟨m, hm⟩ : ∃ m, cfg.max_retries = m + 1 :=
      ⟨cfg.max_retries - 1, by omega⟩
    unfold execute_with_retry
    rw [hm]
    have hb : b.allow_request now = (true, (b.allow_request now).2) := by
      rw [← hallow]
    rw [retryLoop, hb]
    rfl

/-- C10 witness: a concrete failing transfer body run through the retry
executor with a fresh breaker returns the failure pair once and records
a success on the breaker. -/
theorem transfer_wrappers_swallow_witness :
    execute_database_job (.error (.nonRetryable "disk full")) = (false, 0) ∧
    execute_with_retry ⟨{}, some { name := "pg" }⟩
        (fun _ => .ok (execute_database_job (.error (.nonRetryable "disk full")))) 0 =
      (.ok (some (false, 0)),
        some (({ name := "pg" } : CircuitBreaker).allow_request 0).2.record_success, 1) :=
  ⟨(transfer_wrappers_swallow.1 (.nonRetryable "disk full")).1,
    transfer_wrappers_swallow.2 {} { name := "pg" }
      (.error (.nonRetryable "disk full")) 0 (by decide) (by decide)⟩

/-- Job used for the chunk-size claims: valid in every respect except a
configured chunk size of 500, below the accepted range. -/
def chunkJob : Job :=
  { source_type := some (.vStr "postgresql")
    source_name := some (.vStr "pg")
    table_name := some (.vStr "orders")
    load_type := some (.vStr "FULL")
    enabled := some (.vStr "Y")
    chunk_size := some (.vInt 500) }

/-- C3 counterexample: for the job configured with the out-of-range
chunk size 500, validation does yield the failing WARNING, but
`_determine_chunk_size` returns 500 itself - the out-of-range value -
rather than falling back to the default 100000. -/
theorem chunk_size_no_fallback_counterexample :
    (∃ r ∈ validate_job chunkJob, r.passed = false ∧ r.severity = .WARNING) ∧
    (500 : Int) < 1000 ∧
    determine_chunk_size chunkJob none 100000 = 500 ∧
    determine_chunk_size chunkJob none 100000 ≠ 100000 := by
  refine ⟨⟨⟨false, chunkMsg 500, .WARNING⟩, ?_, rfl, rfl⟩, by decide, by decide,
    by decide⟩
  decide

/-- C3 amended: for every job whose chunk-size override is a nonzero
integer outside [1000, 10000000] (required fields present), the chunk
check of `validate_job` yields exactly one failing result and its
severity is WARNING (never ERROR or CRITICAL), but the orchestrator
chunk-size determination returns the configured out-of-range value
itself; the default is used only when the configured value is falsy,
NaN, or fails integer parsing. -/
theorem chunk_out_of_range_warning (j : Job) (n : Int)
    (hreq : missingRequired j = [])
    (hc : j.chunk_size = some (.vInt n))
    (hn0 : n ≠ 0)
    (hout : n < 1000 ∨ n > 10000000) :
    chunkResults j.chunk_size = [⟨false, chunkMsg n, .WARNING⟩] ∧
    (⟨false, chunkMsg n, .WARNING⟩ : ValidationResult) ∈ validate_job j ∧
    ∀ er rc, determine_chunk_size j er rc = n := by
  have hcr : chunkResults j.chunk_size = [⟨false, chunkMsg n, .WARNING⟩] := by
    rw [hc]
    unfold chunkResults chunkRange
    rcases hout with h | h <;> simp [h]
  refine ⟨hcr, ?_, ?_⟩
  · apply validate_job_of_mem_laterChecks j hreq
    unfold laterChecks
    rw [hcr]
    simp
  · intro er rc
    unfold determine_chunk_size
    simp [hc, truthy, hn0]

/-- C3 amended witness: the concrete job with chunk size 500 shows the
WARNING result and the determination returning 500. -/
theorem chunk_out_of_range_warning_witness :
    chunkResults chunkJob.chunk_size = [⟨false, chunkMsg 500, .WARNING⟩] ∧
    (⟨false, chunkMsg 500, .WARNING⟩ : ValidationResult) ∈ validate_job chunkJob ∧
    ∀ er rc, determine_chunk_size chunkJob er rc = 500 :=
  chunk_out_of_range_warning chunkJob 500 (by decide) rfl (by decide)
    (Or.inl (by decide))

theorem allow_request_open (b : CircuitBreaker) (now t : Int)
    (hopen : b.mode = .OPEN) (hlast : b.last_failure_time = some t)
    (hlt : now - t < b.config.timeout) :
    b.allow_request now = (false, b) := by
  unfold CircuitBreaker.allow_request CircuitBreaker.readState
  rw [if_pos hopen, hlast]
  simp [show ¬(now - t ≥ b.config.timeout) by omega]

theorem allow_request_not_open (b : CircuitBreaker) (now : Int)
    (h : b.mode ≠ .OPEN) : b.allow_request now = (true, b) := by
  unfold CircuitBreaker.allow_request CircuitBreaker.readState
  rw [if_neg h]
  rcases hm : b.mode <;> simp_all

theorem record_failure_open (b : CircuitBreaker) (now : Int)
    (hopen : b.mode = .OPEN) :
    b.record_failure now =
      { b with
          failure_count := b.failure_count + 1
          last_failure_time := some now } := by
  unfold CircuitBreaker.record_failure
  simp [hopen]

/-- OPEN breaker with 5 failures recorded, last at instant 0; its
timeout of 30 has not elapsed by instant 10. -/
def openBreaker : CircuitBreaker :=
  { name := "db", mode := .OPEN, failure_count := 5,
    last_failure_time := some 0 }

/-- C2 counterexample: calling the retry executor at instant 10 with
`openBreaker` attached aborts with the circuit-open error before
invoking the wrapped function (0 invocations), yet the rejection is
recorded on the breaker as a failure: the failure count changes from 5
to 6 and the last-failure timestamp from 0 to 10, refuting the claim
that both are left unchanged. -/
theorem circuit_open_records_failure_counterexample :
    (execute_with_retry { circuit_breaker := some openBreaker }
        (fun _ => (.ok 42 : Except Exc Nat)) 10).1 =
      .error (.circuitOpen "db") ∧
    (execute_with_retry { circuit_breaker := some openBreaker }
        (fun _ => (.ok 42 : Except Exc Nat)) 10).2.2 = 0 ∧
    ((execute_with_retry { circuit_breaker := some openBreaker }
        (fun _ => (.ok 42 : Except Exc Nat)) 10).2.1.map
      (·.failure_count)) = some 6 ∧
    ((execute_with_retry { circuit_breaker := some openBreaker }
        (fun _ => (.ok 42 : Except Exc Nat)) 10).2.1.bind
      (·.last_failure_time)) = some 10 :=
  ⟨rfl, by decide, by decide, by decide⟩

/-- C2 amended: with an attached breaker whose state is OPEN and whose
timeout has not elapsed, `execute_with_retry` aborts on the first pass,
raising the circuit-open error without invoking the wrapped function
and without retrying; however, the caught rejection is itself recorded
as a failure on the breaker (as is any caught exception, retryable or
not): the failure count increments and the last-failure timestamp is
restamped to the rejection instant, the state staying OPEN. -/
theorem circuit_open_fail_fast {α : Type} (cfg : RetryConfig)
    (b : CircuitBreaker) (fn : Nat → Except Exc α) (now t : Int)
    (hmr : 1 ≤ cfg.max_retries)
    (hopen : b.mode = .OPEN)
    (hlast : b.last_failure_time = some t)
    (hle : t ≤ now)
    (hlt : now - t < b.config.timeout) :
    execute_with_retry ⟨cfg, some b⟩ fn now =
      (.error (.circuitOpen b.name), some (b.record_failure now), 0) ∧
    (b.record_failure now).failure_count = b.failure_count + 1 ∧
    (b.record_failure now).last_failure_time = some now ∧
    (b.record_failure now).mode = .OPEN := by
  have hb1 := record_failure_open b now hopen
  have hmode1 : (b.record_failure now).mode = .OPEN := by rw [hb1]; exact hopen
  refine ⟨?_, by rw [hb1], by rw [hb1], hmode1⟩
  obtain ⟨m, hm⟩ : ∃ m, cfg.max_retries = m + 1 :=
    ⟨cfg.max_retries - 1, by omega⟩
  have h1 : b.allow_request now = (false, b) :=
    allow_request_open b now t hopen hlast hlt
  have h2 : (b.record_failure now).allow_request now =
      (false, b.record_failure now) := by
    apply allow_request_open _ now now hmode1
    · rw [hb1]
    · have : (b.record_failure now).config = b.config := by rw [hb1]
      rw [this]
      omega
  unfold execute_with_retry
  rw [hm, retryLoop, h1]
  simp [should_retry, h2]

/-- C2 amended witness: the concrete OPEN breaker at instant 10. -/
theorem circuit_open_fail_fast_witness :
    execute_with_retry ⟨{}, some openBreaker⟩
        (fun _ => (.ok 42 : Except Exc Nat)) 10 =
      (.error (.circuitOpen openBreaker.name),
        some (openBreaker.record_failure 10), 0) ∧
    (openBreaker.record_failure 10).failure_count =
      openBreaker.failure_count + 1 ∧
    (openBreaker.record_failure 10).last_failure_time = some 10 ∧
    (openBreaker.record_failure 10).mode = .OPEN :=
  circuit_open_fail_fast {} openBreaker (fun _ => (.ok 42 : Except Exc Nat))
    10 0 (by decide) rfl rfl (by decide) (by decide)

/-- Breaker as constructed by `CircuitBreaker(name, config)`: CLOSED,
zero counters, no failure on record. -/
def CircuitBreaker.fresh (name : String) (config : CircuitBreakerConfig) :
    CircuitBreaker :=
  { name := name, config := config }

/-- `record_failure` applied `k` times, all at instant `now`. -/
def recordFailures (b : CircuitBreaker) (now : Int) : Nat → CircuitBreaker
  | 0 => b
  | k + 1 => (recordFailures b now k).record_failure now

/-- `record_success` applied `k` times. -/
def recordSuccesses (b : CircuitBreaker) : Nat → CircuitBreaker
  | 0 => b
  | k + 1 => (recordSuccesses b k).record_success

theorem record_failure_closed (b : CircuitBreaker) (now : Int)
    (h : b.mode = .CLOSED) :
    b.record_failure now =
      if b.config.failure_threshold ≤ b.failure_count + 1 then
        { b with
            mode := .OPEN
            failure_count := b.failure_count + 1
            last_failure_time := some now }
      else
        { b with
            failure_count := b.failure_count + 1
            last_failure_time := some now } := by
  unfold CircuitBreaker.record_failure
  simp only [h]
  split <;> simp_all [ge_iff_le]

theorem recordFailures_fresh (name : String) (cfg : CircuitBreakerConfig)
    (now : Int) (k : Nat) (hk : k ≤ cfg.failure_threshold) :
    (recordFailures (.fresh name cfg) now k).config = cfg ∧
    (recordFailures (.fresh name cfg) now k).failure_count = k ∧
    (recordFailures (.fresh name cfg) now k).mode =
      (if k = cfg.failure_threshold ∧ 1 ≤ k then .OPEN else .CLOSED) ∧
    (1 ≤ k →
      (recordFailures (.fresh name cfg) now k).last_failure_time = some now) := by
  induction k with
  | zero =>
    refine ⟨rfl, rfl, ?_, by omega⟩
    rw [if_neg (by omega)]
    rfl
  | succ k ih =>
    obtain ⟨hcfg, hcount, hmode, _⟩ := ih (by omega)
    have hclosed : (recordFailures (.fresh name cfg) now k).mode = .CLOSED := by
      rw [hmode, if_neg (by omega)]
    rw [show recordFailures (.fresh name cfg) now (k + 1) =
      (recordFailures (.fresh name cfg) now k).record_failure now from rfl]
    rw [record_failure_closed _ now hclosed, hcfg, hcount]
    by_cases hge : cfg.failure_threshold ≤ k + 1
    · rw [if_pos hge]
      refine ⟨rfl, rfl, ?_, fun _ => rfl⟩
      rw [if_pos (by omega)]
    · rw [if_neg hge]
      refine ⟨rfl, rfl, ?_, fun _ => rfl⟩
      rw [hclosed, if_neg (by omega)]

theorem record_success_halfOpen (b : CircuitBreaker)
    (h : b.mode = .HALF_OPEN) :
    b.record_success =
      if b.config.success_threshold ≤ b.success_count + 1 then
        { b with mode := .CLOSED, failure_count := 0, success_count := 0 }
      else { b with success_count := b.success_count + 1 } := by
  unfold CircuitBreaker.record_success
  simp only [h]
  split <;> simp_all [ge_iff_le]

theorem recordSuccesses_halfOpen (b : CircuitBreaker)
    (hmode : b.mode = .HALF_OPEN) (hsc : b.success_count = 0) (k : Nat)
    (hk : k < b.config.success_threshold) :
    (recordSuccesses b k).mode = .HALF_OPEN ∧
    (recordSuccesses b k).success_count = k ∧
    (recordSuccesses b k).config = b.config := by
  induction k with
  | zero => exact ⟨hmode, hsc, rfl⟩
  | succ k ih =>
    obtain ⟨hm, hs, hc⟩ := ih (by omega)
    rw [show recordSuccesses b (k + 1) =
      (recordSuccesses b k).record_success from rfl]
    rw [record_success_halfOpen _ hm, hc, hs, if_neg (by omega)]
    exact ⟨hm, rfl, rfl⟩

/-- C4: the circuit breaker state machine.  (a) From a fresh CLOSED
breaker, `failure_threshold` consecutive `record_failure` calls make
`allow_request` return false while the timeout has not elapsed.
(b) Once the timeout has elapsed since the last failure, the next read
of `state` transitions OPEN to HALF_OPEN and `allow_request` returns
true again.  (c) A single `record_failure` while HALF_OPEN returns the
breaker to OPEN (clearing the success count).  (d) `success_threshold`
consecutive `record_success` calls in HALF_OPEN transition it to CLOSED
with both counters reset to zero. -/
theorem circuit_breaker_state_machine :
    (∀ (name : String) (cfg : CircuitBreakerConfig) (now after : Int),
      1 ≤ cfg.failure_threshold → after - now < cfg.timeout →
      ((recordFailures (.fresh name cfg) now cfg.failure_threshold).allow_request
        after).1 = false) ∧
    (∀ (b : CircuitBreaker) (t now : Int), b.mode = .OPEN →
      b.last_failure_time = some t → b.config.timeout ≤ now - t →
      (b.readState now).1 = .HALF_OPEN ∧
      (b.readState now).2.mode = .HALF_OPEN ∧
      (b.allow_request now).1 = true) ∧
    (∀ (b : CircuitBreaker) (now : Int), b.mode = .HALF_OPEN →
      (b.record_failure now).mode = .OPEN ∧
      (b.record_failure now).success_count = 0) ∧
    (∀ b : CircuitBreaker, b.mode = .HALF_OPEN → b.success_count = 0 →
      1 ≤ b.config.success_threshold →
      (recordSuccesses b b.config.success_threshold).mode = .CLOSED ∧
      (recordSuccesses b b.config.success_threshold).failure_count = 0 ∧
      (recordSuccesses b b.config.success_threshold).success_count = 0) := by
  refine ⟨?_, ?_, ?_, ?_⟩
  · intro name cfg now after hth htm
    obtain ⟨hcfg, _, hmode, hlast⟩ :=
      recordFailures_fresh name cfg now cfg.failure_threshold le_rfl
    rw [if_pos ⟨rfl, hth⟩] at hmode
    rw [allow_request_open _ after now hmode (hlast hth) (by rw [hcfg]; omega)]
  · intro b t now hopen hlast htm
    have hrs : b.readState now =
        (.HALF_OPEN, { b with mode := .HALF_OPEN }) := by
      unfold CircuitBreaker.readState
      rw [if_pos hopen, hlast]
      have hge : now - t ≥ b.config.timeout := by omega
      simp [hge, ← hlast]
    refine ⟨by rw [hrs], by rw [hrs], ?_⟩
    unfold CircuitBreaker.allow_request
    rw [hrs]
    rfl
  · intro b now hmode
    unfold CircuitBreaker.record_failure
    simp [hmode]
  · intro b hmode hsc hth
    obtain ⟨m, hm⟩ : ∃ m, b.config.success_threshold = m + 1 :=
      ⟨b.config.success_threshold - 1, by omega⟩
    obtain ⟨hmo, hs, hc⟩ := recordSuccesses_halfOpen b hmode hsc m (by omega)
    rw [hm, show recordSuccesses b (m + 1) =
      (recordSuccesses b m).record_success from rfl]
    rw [record_success_halfOpen _ hmo, hc, hs, if_pos (by omega)]
    exact ⟨rfl, rfl, rfl⟩

/-- C4 witness: concrete runs of all four transitions with threshold 3,
success threshold 2 and timeout 30. -/
theorem circuit_breaker_state_machine_witness :
    ((recordFailures (.fresh "db" ⟨3, 2, 30⟩) 0 3).allow_request 10).1 = false ∧
    (({ name := "db", mode := .OPEN, last_failure_time := some 0 } :
        CircuitBreaker).readState 50).1 = .HALF_OPEN ∧
    (({ name := "db", mode := .HALF_OPEN } :
        CircuitBreaker).record_failure 7).mode = .OPEN ∧
    (recordSuccesses
      { name := "db", config := ⟨3, 2, 30⟩, mode := .HALF_OPEN } 2).mode =
      .CLOSED :=
  ⟨circuit_breaker_state_machine.1 "db" ⟨3, 2, 30⟩ 0 10 (by decide) (by decide),
    (circuit_breaker_state_machine.2.1
      { name := "db", mode := .OPEN, last_failure_time := some 0 } 0 50
      rfl rfl (by decide)).1,
    (circuit_breaker_state_machine.2.2.1
      { name := "db", mode := .HALF_OPEN } 7 rfl).1,
    (circuit_breaker_state_machine.2.2.2
      { name := "db", config := ⟨3, 2, 30⟩, mode := .HALF_OPEN }
      rfl rfl (by decide)).1⟩

theorem record_failure_count (b : CircuitBreaker) (now : Int) :
    (b.record_failure now).failure_count = b.failure_count + 1 := by
  unfold CircuitBreaker.record_failure
  dsimp only
  split_ifs <;> rfl

theorem readState_snd_count (b : CircuitBreaker) (now : Int) :
    (b.readState now).2.failure_count = b.failure_count := by
  unfold CircuitBreaker.readState
  rcases hl : b.last_failure_time with _ | t <;> dsimp only <;>
    split_ifs <;> rfl

theorem allow_request_snd (b : CircuitBreaker) (now : Int) :
    (b.allow_request now).2 = (b.readState now).2 := rfl

theorem should_retry_snd_count (b : CircuitBreaker) (e : Exc) (now : Int) :
    ((should_retry (some b) e now).2.map (fun x => x.failure_count)) =
      some b.failure_count := by
  have h2 : (b.allow_request now).2.failure_count = b.failure_count := by
    rw [allow_request_snd]
    exact readState_snd_count b now
  unfold should_retry
  rcases h : b.allow_request now with ⟨al, b2⟩
  rw [h] at h2
  dsimp only
  rw [h]
  split_ifs <;> simpa using h2

theorem retryLoop_closed_fail_step {α : Type} (maxR : Nat)
    (fn : Nat → Except Exc α) (now : Int) (attempt r calls : Nat)
    (b : CircuitBreaker) (msg : String)
    (hmode : b.mode = .CLOSED)
    (hth : b.failure_count + 1 < b.config.failure_threshold)
    (hfn : fn calls = .error (.retryable msg))
    (hatt : attempt < maxR) :
    retryLoop maxR fn now attempt (r + 1) (some b) calls =
      retryLoop maxR fn now (attempt + 1) r
        (some { b with
            failure_count := b.failure_count + 1
            last_failure_time := some now }) (calls + 1) := by
  have hall : b.allow_request now = (true, b) :=
    allow_request_not_open b now (by simp [hmode])
  have hb1 : b.record_failure now =
      { b with
          failure_count := b.failure_count + 1
          last_failure_time := some now } := by
    rw [record_failure_closed b now hmode, if_neg (by omega)]
  have hb1all :
      ({ b with
          failure_count := b.failure_count + 1
          last_failure_time := some now } : CircuitBreaker).allow_request now =
        (true, { b with
          failure_count := b.failure_count + 1
          last_failure_time := some now }) :=
    allow_request_not_open _ now (by simp [hmode])
  have hnot : ¬ (attempt ≥ maxR) := by omega
  rw [retryLoop, hall]
  simp [hfn, hb1, should_retry, hb1all, hnot, Exc.isRetryable]

theorem retryLoop_closed_success_step {α : Type} (maxR : Nat)
    (fn : Nat → Except Exc α) (now : Int) (attempt r calls : Nat)
    (b : CircuitBreaker) (v : α)
    (hmode : b.mode = .CLOSED) (hfn : fn calls = .ok v) :
    retryLoop maxR fn now attempt (r + 1) (some b) calls =
      (.ok (some v), some { b with failure_count := 0 }, calls + 1) := by
  have hall : b.allow_request now = (true, b) :=
    allow_request_not_open b now (by simp [hmode])
  have hrs : b.record_success = { b with failure_count := 0 } := by
    unfold CircuitBreaker.record_success
    simp [hmode]
  rw [retryLoop, hall]
  simp [hfn, hrs]

theorem retryLoop_last_fail_step {α : Type} (maxR : Nat)
    (fn : Nat → Except Exc α) (now : Int) (attempt r calls : Nat)
    (b : CircuitBreaker) (e : Exc)
    (hmode : b.mode = .CLOSED) (hfn : fn calls = .error e)
    (hatt : maxR ≤ attempt) :
    retryLoop maxR fn now attempt (r + 1) (some b) calls =
      (.error e, (should_retry (some (b.record_failure now)) e now).2,
        calls + 1) := by
  have hall : b.allow_request now = (true, b) :=
    allow_request_not_open b now (by simp [hmode])
  have hge : attempt ≥ maxR := hatt
  rw [retryLoop, hall]
  simp [hfn, hge]

theorem should_retry_snd (x : CircuitBreaker) (e : Exc) (now : Int) :
    (should_retry (some x) e now).2 = some ((x.allow_request now).2) := by
  unfold should_retry
  rcases h : x.allow_request now with ⟨al, b2⟩
  dsimp only
  rw [h]
  split_ifs <;> rfl

/-- C5: (a) for a wrapped function failing twice with a retryable
exception and then succeeding, run with max_retries at least 3 and a
fresh breaker whose failure threshold is at least 3,
`execute_with_retry` returns the success result after exactly 3
invocations and the breaker ends in the CLOSED success-recorded state
(failure count reset to 0; in CLOSED, recording the success clears the
failure count rather than incrementing the HALF_OPEN success counter);
(b) for a function that always fails retryably and max_retries = 3, it
raises the last exception after exactly 3 invocations and the breaker
has recorded exactly 3 failures. -/
theorem retry_executor_scenarios :
    (∀ (α : Type) (cfg : RetryConfig) (name : String)
      (bcfg : CircuitBreakerConfig) (fn : Nat → Except Exc α) (now : Int)
      (m1 m2 : String) (v : α),
      3 ≤ cfg.max_retries → 3 ≤ bcfg.failure_threshold →
      fn 0 = .error (.retryable m1) → fn 1 = .error (.retryable m2) →
      fn 2 = .ok v →
      execute_with_retry ⟨cfg, some (.fresh name bcfg)⟩ fn now =
        (.ok (some v),
          some { name := name, config := bcfg, mode := .CLOSED,
                 failure_count := 0, success_count := 0,
                 last_failure_time := some now }, 3)) ∧
    (∀ (α : Type) (cfg : RetryConfig) (name : String)
      (bcfg : CircuitBreakerConfig) (fn : Nat → Except Exc α) (now : Int)
      (e0 e1 e2 : String),
      cfg.max_retries = 3 → 3 ≤ bcfg.failure_threshold →
      fn 0 = .error (.retryable e0) → fn 1 = .error (.retryable e1) →
      fn 2 = .error (.retryable e2) →
      ∃ b3 : CircuitBreaker,
        execute_with_retry ⟨cfg, some (.fresh name bcfg)⟩ fn now =
          (.error (.retryable e2), some b3, 3) ∧
        b3.failure_count = 3) := by
  constructor
  · intro α cfg name bcfg fn now m1 m2 v hmr hth h0 h1 h2
    obtain ⟨m, hm⟩ : ∃ m, cfg.max_retries = m + 3 :=
      ⟨cfg.max_retries - 3, by omega⟩
    unfold execute_with_retry
    dsimp only
    rw [hm, show m + 3 = (m + 2) + 1 from rfl,
      retryLoop_closed_fail_step (m + 2 + 1) fn now 1 (m + 2) 0
        (CircuitBreaker.fresh name bcfg) m1 rfl
        (by simp [CircuitBreaker.fresh]; omega) h0 (by omega),
      retryLoop_closed_fail_step (m + 2 + 1) fn now 2 (m + 1) 1 _ m2 rfl
        (by simp [CircuitBreaker.fresh]; omega) h1 (by omega),
      retryLoop_closed_success_step (m + 2 + 1) fn now 3 m 2 _ v rfl h2]
    rfl
  · intro α cfg name bcfg fn now e0 e1 e2 hm hth h0 h1 h2
    refine ⟨((({ name := name
                 config := bcfg
                 mode := .CLOSED
                 failure_count := 2
                 success_count := 0
                 last_failure_time := some now } :
        CircuitBreaker).record_failure now).allow_request now).2, ?_, ?_⟩
    · unfold execute_with_retry
      dsimp only
      rw [hm, show (3 : Nat) = 2 + 1 from rfl,
        retryLoop_closed_fail_step (2 + 1) fn now 1 2 0
          (CircuitBreaker.fresh name bcfg) e0 rfl
          (by simp [CircuitBreaker.fresh]; omega) h0 (by omega),
        retryLoop_closed_fail_step (2 + 1) fn now 2 1 1 _ e1 rfl
          (by simp [CircuitBreaker.fresh]; omega) h1 (by omega),
        retryLoop_last_fail_step (2 + 1) fn now 3 0 2 _ (.retryable e2) rfl
          h2 (by omega),
        should_retry_snd]
      rfl
    · rw [allow_request_snd, readState_snd_count, record_failure_count]


/-- C5 witness: concrete runs of both scenarios with a fresh breaker of
failure threshold 3. -/
theorem retry_executor_scenarios_witness :
    execute_with_retry ⟨{ max_retries := 3 }, some (.fresh "db" ⟨3, 1, 60⟩)⟩
        (fun k => if k < 2 then .error (.retryable "boom") else .ok 7) 0 =
      (.ok (some 7),
        some { name := "db"
               config := ⟨3, 1, 60⟩
               mode := .CLOSED
               failure_count := 0
               success_count := 0
               last_failure_time := some 0 }, 3) ∧
    ∃ b3 : CircuitBreaker,
      execute_with_retry ⟨{ max_retries := 3 }, some (.fresh "db" ⟨3, 1, 60⟩)⟩
          (fun _ => (.error (.retryable "down") : Except Exc Nat)) 0 =
        (.error (.retryable "down"), some b3, 3) ∧
      b3.failure_count = 3 :=
  ⟨retry_executor_scenarios.1 Nat { max_retries := 3 } "db" ⟨3, 1, 60⟩
      (fun k => if k < 2 then .error (.retryable "boom") else .ok 7) 0
      "boom" "boom" 7 (by decide) (by decide) rfl rfl rfl,
    retry_executor_scenarios.2 Nat { max_retries := 3 } "db" ⟨3, 1, 60⟩
      (fun _ => (.error (.retryable "down") : Except Exc Nat)) 0
      "down" "down" "down"
      rfl (by decide) rfl rfl rfl⟩


/-- C7 counterexample: with the platform store yielding nothing, no
vault configured, every probed environment variable unset, and the
secrets file containing the source key mapped to an empty table - so
every backend yields an empty or absent map - resolution returns the
empty map from the secrets file instead of raising the not-found
error. -/
theorem credential_resolution_counterexample :
    get_source_config none false (.error "vault down") (fun _ => none)
        (some [("foo", [])]) "foo" = .ok [] ∧
    get_source_config none false (.error "vault down") (fun _ => none)
        (some [("foo", [])]) "foo" ≠ .error (notFoundMsg "foo") := by
  refine ⟨rfl, ?_⟩
  intro h
  rw [show get_source_config none false (.error "vault down") (fun _ => none)
      (some [("foo", [])]) "foo" = .ok [] from rfl] at h
  exact Except.noConfusion h

theorem get_source_config_db_nothing
    (db : Option (List (String × String))) (uk : Bool)
    (vl : Except String (List (String × String)))
    (ge : String → Option String)
    (ts : Option (List (String × List (String × String)))) (sn : String)
    (hdb : db = none ∨ db = some []) :
    get_source_config db uk vl ge ts sn = tryVaultThenRest uk vl ge ts sn := by
  rcases hdb with h | h <;> simp [get_source_config, h]

theorem tryVaultThenRest_nothing (uk : Bool)
    (vl : Except String (List (String × String)))
    (ge : String → Option String)
    (ts : Option (List (String × List (String × String)))) (sn : String)
    (hv : uk = false ∨ vl = .ok [] ∨ ∃ m, vl = .error m) :
    tryVaultThenRest uk vl ge ts sn = tryEnvThenToml ge ts sn := by
  rcases hv with h | h | ⟨m, h⟩ <;> simp [tryVaultThenRest, h]

/-- C7 amended: credential resolution consults the platform store, then
the vault (only when configured), then the `DLT_<SOURCE>_<KEY>`
environment variables, then the local secrets file, with no merging:
(1) a non-empty platform-store map wins; (2) without a configured vault
address the vault lookup is never consulted; (3) a non-empty vault map
wins when the platform store yields nothing; (4) an exception thrown by
the vault lookup is caught and resolution falls through to the
environment variables without raising; (5) a non-empty environment map
wins when the earlier backends yield nothing; (6) the secrets-file
backend wins on mere presence of the source key, returning its map even
when empty; and (7) resolution raises the not-found error exactly when
the earlier backends yield nothing and the source key is absent from
the secrets file. -/
theorem credential_resolution_chain :
    (∀ (uk : Bool) vl (ge : String → Option String) ts (sn : String)
      (cfg : List (String × String)), cfg ≠ [] →
      get_source_config (some cfg) uk vl ge ts sn = .ok cfg) ∧
    (∀ db (ge : String → Option String) ts (sn : String) v1 v2,
      get_source_config db false v1 ge ts sn =
        get_source_config db false v2 ge ts sn) ∧
    (∀ db (ge : String → Option String) ts (sn : String)
      (cfg : List (String × String)), (db = none ∨ db = some []) →
      cfg ≠ [] →
      get_source_config db true (.ok cfg) ge ts sn = .ok cfg) ∧
    (∀ db (ge : String → Option String) ts (sn msg : String)
      (cfg : List (String × String)), (db = none ∨ db = some []) →
      load_from_env ge sn = some cfg →
      get_source_config db true (.error msg) ge ts sn = .ok cfg) ∧
    (∀ db (uk : Bool) vl (ge : String → Option String) ts (sn : String)
      (cfg : List (String × String)), (db = none ∨ db = some []) →
      (uk = false ∨ vl = .ok [] ∨ ∃ m, vl = .error m) →
      load_from_env ge sn = some cfg →
      get_source_config db uk vl ge ts sn = .ok cfg) ∧
    (∀ db (uk : Bool) vl (ge : String → Option String) srcs (sn : String)
      (cfg : List (String × String)), (db = none ∨ db = some []) →
      (uk = false ∨ vl = .ok [] ∨ ∃ m, vl = .error m) →
      load_from_env ge sn = none →
      lookupAssoc srcs sn = some cfg →
      get_source_config db uk vl ge (some srcs) sn = .ok cfg) ∧
    (∀ db (uk : Bool) vl (ge : String → Option String) ts (sn : String),
      (db = none ∨ db = some []) →
      (uk = false ∨ vl = .ok [] ∨ ∃ m, vl = .error m) →
      load_from_env ge sn = none →
      (ts = none ∨ ∃ srcs, ts = some srcs ∧ lookupAssoc srcs sn = none) →
      get_source_config db uk vl ge ts sn = .error (notFoundMsg sn)) := by
  refine ⟨?_, ?_, ?_, ?_, ?_, ?_, ?_⟩
  · intro uk vl ge ts sn cfg hne
    simp [get_source_config, hne]
  · intro db ge ts sn v1 v2
    rcases db with _ | cfg
    · simp [get_source_config, tryVaultThenRest]
    · by_cases h : cfg = [] <;>
        simp [get_source_config, tryVaultThenRest, h]
  · intro db ge ts sn cfg hdb hne
    rw [get_source_config_db_nothing db true (.ok cfg) ge ts sn hdb]
    simp [tryVaultThenRest, hne]
  · intro db ge ts sn msg cfg hdb henv
    rw [get_source_config_db_nothing db true (.error msg) ge ts sn hdb]
    simp [tryVaultThenRest, tryEnvThenToml, henv]
  · intro db uk vl ge ts sn cfg hdb hv henv
    rw [get_source_config_db_nothing db uk vl ge ts sn hdb,
      tryVaultThenRest_nothing uk vl ge ts sn hv]
    simp [tryEnvThenToml, henv]
  · intro db uk vl ge srcs sn cfg hdb hv henv htoml
    rw [get_source_config_db_nothing db uk vl ge (some srcs) sn hdb,
      tryVaultThenRest_nothing uk vl ge (some srcs) sn hv]
    simp [tryEnvThenToml, trySecretsToml, henv, htoml]
  · intro db uk vl ge ts sn hdb hv henv hts
    rw [get_source_config_db_nothing db uk vl ge ts sn hdb,
      tryVaultThenRest_nothing uk vl ge ts sn hv]
    rcases hts with h | ⟨srcs, hsrcs, hlk⟩ <;>
      simp [tryEnvThenToml, trySecretsToml, henv, *]

/-- C7 amended witness: concrete runs of each stage of the chain. -/
theorem credential_resolution_chain_witness :
    get_source_config (some [("host", "h1")]) true (.ok [("host", "h2")])
        (fun _ => none) none "pg" = .ok [("host", "h1")] ∧
    get_source_config none false (.ok [("host", "h2")])
        (fun _ => none) (some [("pg", [("host", "h9")])]) "pg" =
      get_source_config none false (.error "boom")
        (fun _ => none) (some [("pg", [("host", "h9")])]) "pg" ∧
    get_source_config none true (.ok [("host", "h2")])
        (fun _ => none) none "pg" = .ok [("host", "h2")] ∧
    get_source_config none true (.error "vault down")
        (fun k => if k == "DLT_PG_HOST" then some "h3" else none)
        none "pg" = .ok [("host", "h3")] ∧
    get_source_config none false (.ok [])
        (fun _ => none) (some [("pg", [("host", "h9")])]) "pg" =
      .ok [("host", "h9")] ∧
    get_source_config none false (.ok []) (fun _ => none) none "pg" =
      .error (notFoundMsg "pg") :=
  ⟨credential_resolution_chain.1 true (.ok [("host", "h2")])
      (fun _ => none) none "pg" [("host", "h1")] (by simp),
    credential_resolution_chain.2.1 none (fun _ => none)
      (some [("pg", [("host", "h9")])]) "pg" (.ok [("host", "h2")])
      (.error "boom"),
    credential_resolution_chain.2.2.1 none (fun _ => none) none "pg"
      [("host", "h2")] (Or.inl rfl) (by simp),
    credential_resolution_chain.2.2.2.1 none
      (fun k => if k == "DLT_PG_HOST" then some "h3" else none) none "pg"
      "vault down" [("host", "h3")] (Or.inl rfl) (by decide),
    credential_resolution_chain.2.2.2.2.2.1 none false (.ok [])
      (fun _ => none) [("pg", [("host", "h9")])] "pg" [("host", "h9")]
      (Or.inl rfl) (Or.inl rfl) (by decide) (by decide),
    credential_resolution_chain.2.2.2.2.2.2 none false (.ok [])
      (fun _ => none) none "pg" (Or.inl rfl) (Or.inl rfl) (by decide)
      (Or.inl rfl)⟩


theorem lookupAssoc_setAssoc_self {α : Type} (l : List (String × α))
    (k : String) (v : α) : lookupAssoc (setAssoc l k v) k = some v := by
  induction l with
  | nil => simp [setAssoc, lookupAssoc]
  | cons p rest ih =>
    rcases p with ⟨k0, v0⟩
    by_cases h : k0 == k <;> simp [setAssoc, lookupAssoc, h, ih]

theorem complete_job_start_job (m : MetricsCollector)
    (jn st dt status : String) (rows : Nat) (err : Option String) :
    ((m.start_job jn st dt).complete_job jn status rows err).completed_jobs =
      m.completed_jobs ++
        [{ job_name := jn
           status := status
           rows_processed := rows
           source_type := st
           destination_type := dt
           error_message :=
             match err with
             | some e => if e == "" then none else some e
             | none => none }] := by
  unfold MetricsCollector.start_job MetricsCollector.complete_job
  dsimp only
  rw [lookupAssoc_setAssoc_self]

/-- Job used for the C1 counterexample: INCREMENTAL with no watermark
column, so validation fails with an ERROR. -/
def c1Job : Job :=
  { source_type := some (.vStr "postgresql")
    source_name := some (.vStr "pg")
    table_name := some (.vStr "events")
    load_type := some (.vStr "INCREMENTAL")
    enabled := some (.vStr "Y") }

/-- C1 counterexample: a job failing validation has its outcome
recorded in the audit tracker but not in the metrics collector
completed-jobs records (metrics tracking never started), refuting the
claim that every path records the outcome in both. -/
theorem job_outcome_not_in_metrics_counterexample :
    (execute_job c1Job [] (.ok (true, 5)) {}).2.audit =
      [{ job_name := "pg.events", status := "VALIDATION_FAILED", rows := 0,
         error_message := some "INCREMENTAL load requires watermark_column" }] ∧
    (execute_job c1Job [] (.ok (true, 5)) {}).2.metrics.completed_jobs = [] ∧
    (execute_job c1Job [] (.ok (true, 5)) {}).1 = false := by
  refine ⟨by decide, by decide, by decide⟩


/-- Completed-jobs record that `execute_job` leaves in the metrics
collector for a job that reached execution. -/
def completedRecord (j : Job) (status : String) (rows : Nat)
    (err : Option String) : PipelineMetrics :=
  { job_name := jobDisplayName j
    status := status
    rows_processed := rows
    source_type := pyLower (pyStr ((j.get "source_type").getD .vNone))
    destination_type := "adls_gen2"
    error_message := err }

theorem run_all_seq_counts
    (items : List (Job × List ValidationResult × Except Exc (Bool × Nat)))
    (a b : Nat) (st : OrchestratorState) :
    (items.foldl (fun acc item =>
        let (ok, st2) := execute_job item.1 item.2.1 item.2.2 acc.2.2
        if ok then (acc.1 + 1, acc.2.1, st2) else (acc.1, acc.2.1 + 1, st2))
      (a, b, st)).1 +
    (items.foldl (fun acc item =>
        let (ok, st2) := execute_job item.1 item.2.1 item.2.2 acc.2.2
        if ok then (acc.1 + 1, acc.2.1, st2) else (acc.1, acc.2.1 + 1, st2))
      (a, b, st)).2.1 = a + b + items.length := by
  induction items generalizing a b st with
  | nil => simp
  | cons it rest ih =>
    rw [List.foldl_cons]
    rcases hx : execute_job it.1 it.2.1 it.2.2 st with ⟨ok, st2⟩
    simp only [hx]
    cases ok
    · rw [show ((if false = true then (a + 1, b, st2)
        else (a, b + 1, st2)) : Nat × Nat × OrchestratorState) =
          (a, b + 1, st2) from rfl]
      rw [ih]
      simp [List.length_cons]
      omega
    · rw [show ((if true = true then (a + 1, b, st2)
        else (a, b + 1, st2)) : Nat × Nat × OrchestratorState) =
          (a + 1, b, st2) from rfl]
      rw [ih]
      simp [List.length_cons]
      omega

/-- C1 amended: every job outcome is recorded in the audit tracker on
every path, and additionally in the metrics collector completed-jobs
records on the paths that reach execution: a successful transfer is
recorded with status SUCCESS (returning True), a failed transfer with
FAILED, and a caught unexpected exception with ERROR, with execute_job
returning False; a validation failure or a secrets failure is recorded
only in the audit tracker (with status VALIDATION_FAILED or
SECRETS_INVALID), since metrics tracking has not started; and the
sequential run_all loop counts every job as a success or failure, so
one job outcome never aborts the batch. -/
theorem execute_job_records_outcomes :
    (∀ (j : Job) (sr : List ValidationResult) (rows : Nat)
      (st : OrchestratorState),
      (validate_job j).find? (fun r =>
        !r.passed && (r.severity == .ERROR || r.severity == .CRITICAL)) =
          none →
      sr.find? (fun r => !r.passed) = none →
      (execute_job j sr (.ok (true, rows)) st).1 = true ∧
      (execute_job j sr (.ok (true, rows)) st).2.audit =
        st.audit ++ [⟨jobDisplayName j, "SUCCESS", rows, none⟩] ∧
      (execute_job j sr (.ok (true, rows)) st).2.metrics.completed_jobs =
        st.metrics.completed_jobs ++ [completedRecord j "SUCCESS" rows none]) ∧
    (∀ (j : Job) (sr : List ValidationResult) (k : Nat)
      (st : OrchestratorState),
      (validate_job j).find? (fun r =>
        !r.passed && (r.severity == .ERROR || r.severity == .CRITICAL)) =
          none →
      sr.find? (fun r => !r.passed) = none →
      (execute_job j sr (.ok (false, k)) st).1 = false ∧
      (execute_job j sr (.ok (false, k)) st).2.audit =
        st.audit ++ [⟨jobDisplayName j, "FAILED", 0,
          some "Job execution failed"⟩] ∧
      (execute_job j sr (.ok (false, k)) st).2.metrics.completed_jobs =
        st.metrics.completed_jobs ++
          [completedRecord j "FAILED" 0 (some "Job execution failed")]) ∧
    (∀ (j : Job) (sr : List ValidationResult) (e : Exc)
      (st : OrchestratorState),
      (validate_job j).find? (fun r =>
        !r.passed && (r.severity == .ERROR || r.severity == .CRITICAL)) =
          none →
      sr.find? (fun r => !r.passed) = none →
      (execute_job j sr (.error e) st).1 = false ∧
      (execute_job j sr (.error e) st).2.audit =
        st.audit ++ [⟨jobDisplayName j, "ERROR", 0, some (excMessage e)⟩] ∧
      (execute_job j sr (.error e) st).2.metrics.completed_jobs =
        st.metrics.completed_jobs ++
          [completedRecord j "ERROR" 0
            (if excMessage e == "" then none else some (excMessage e))]) ∧
    (∀ (j : Job) (sr : List ValidationResult)
      (tr : Except Exc (Bool × Nat)) (st : OrchestratorState)
      (r : ValidationResult),
      (validate_job j).find? (fun r =>
        !r.passed && (r.severity == .ERROR || r.severity == .CRITICAL)) =
          some r →
      execute_job j sr tr st =
        (false, { st with audit := st.audit ++
          [⟨jobDisplayName j, "VALIDATION_FAILED", 0, some r.message⟩] })) ∧
    (∀ (j : Job) (sr : List ValidationResult)
      (tr : Except Exc (Bool × Nat)) (st : OrchestratorState)
      (r : ValidationResult),
      (validate_job j).find? (fun r =>
        !r.passed && (r.severity == .ERROR || r.severity == .CRITICAL)) =
          none →
      sr.find? (fun r => !r.passed) = some r →
      execute_job j sr tr st =
        (false, { st with audit := st.audit ++
          [⟨jobDisplayName j, "SECRETS_INVALID", 0, some r.message⟩] })) ∧
    (∀ (items : List (Job × List ValidationResult × Except Exc (Bool × Nat)))
      (st : OrchestratorState),
      (run_all_seq items st).1 + (run_all_seq items st).2.1 =
        items.length) := by
  refine ⟨?_, ?_, ?_, ?_, ?_, ?_⟩
  · intro j sr rows st hv hs
    simp only [execute_job]
    rw [hv, hs]
    exact ⟨rfl, rfl, complete_job_start_job _ _ _ _ _ _ _⟩
  · intro j sr k st hv hs
    simp only [execute_job]
    rw [hv, hs]
    refine ⟨rfl, rfl, ?_⟩
    rw [complete_job_start_job]
    rfl
  · intro j sr e st hv hs
    simp only [execute_job]
    rw [hv, hs]
    refine ⟨rfl, rfl, ?_⟩
    rw [complete_job_start_job]
    by_cases h : excMessage e == "" <;> simp [h, completedRecord]
  · intro j sr tr st r hv
    simp only [execute_job]
    rw [hv]
  · intro j sr tr st r hv hs
    simp only [execute_job]
    rw [hv, hs]
  · intro items st
    unfold run_all_seq
    simpa using run_all_seq_counts items 0 0 st


/-- Valid FULL job used for the C1 witness. -/
def c1OkJob : Job :=
  { source_type := some (.vStr "postgresql")
    source_name := some (.vStr "pg")
    table_name := some (.vStr "users")
    load_type := some (.vStr "FULL")
    enabled := some (.vStr "Y") }

/-- C1 amended witness: concrete success, caught-exception and batch
runs. -/
theorem execute_job_records_outcomes_witness :
    (execute_job c1OkJob [] (.ok (true, 7)) {}).1 = true ∧
    (execute_job c1OkJob [] (.error (.nonRetryable "boom")) {}).1 = false ∧
    (execute_job c1OkJob []
        (.error (.nonRetryable "boom")) {}).2.metrics.completed_jobs =
      ({} : OrchestratorState).metrics.completed_jobs ++
        [completedRecord c1OkJob "ERROR" 0
          (if excMessage (.nonRetryable "boom") == "" then none
           else some (excMessage (.nonRetryable "boom")))] ∧
    (run_all_seq [(c1OkJob, [], .ok (true, 7))] {}).1 +
      (run_all_seq [(c1OkJob, [], .ok (true, 7))] {}).2.1 = 1 :=
  ⟨(execute_job_records_outcomes.1 c1OkJob [] 7 {} (by decide) rfl).1,
    (execute_job_records_outcomes.2.2.1 c1OkJob [] (.nonRetryable "boom") {}
      (by decide) rfl).1,
    (execute_job_records_outcomes.2.2.1 c1OkJob [] (.nonRetryable "boom") {}
      (by decide) rfl).2.2,
    execute_job_records_outcomes.2.2.2.2.2 [(c1OkJob, [], .ok (true, 7))] {}⟩

end Dlt
